import Mathlib

/-!
Verification development for the claude-code-env-manager repository.

The Python source (src/claude_env_manager) is shallowly embedded:
Python `dict[str, str]` becomes an insertion-ordered association list
(`Env`), `datetime.datetime` becomes a seven-component record
(`DateTime`) with lexicographic comparison, and code that raises
exceptions becomes functions into `Except`/`Option`.  File-system
interaction is modelled by explicit state values (the parsed content of
each document and a flag recording whether a document was written).
-/

/-- Python `dict[str, str]`, as an insertion-ordered association list
(Python dicts preserve insertion order). -/
abbrev Env : Type := List (String × String)

/-- Lookup of a key (Python `d[k]` / `d.get(k)`): first matching entry. -/
def envLookup : Env → String → Option String
  | [], _ => none
  | (k, v) :: rest, key => if k = key then some v else envLookup rest key

/-- Python `key in d`. -/
def envMem (e : Env) (k : String) : Bool := (envLookup e k).isSome

/-- Python `d.get(k, dflt)`. -/
def envGetD (e : Env) (k : String) (dflt : String) : String :=
  (envLookup e k).getD dflt

/-- Python `d[k] = v`: replace the value in place if the key is present,
append the pair otherwise. -/
def envInsert : Env → String → String → Env
  | [], k, v => [(k, v)]
  | (k', v') :: rest, k, v =>
      if k' = k then (k', v) :: rest else (k', v') :: envInsert rest k v

/-- Python `str.startswith`, via the character list (kernel-reducible
form of `String.startsWith`). -/
def strStartsWith (s pre : String) : Bool := pre.toList.isPrefixOf s.toList

/-- Python `str.endswith`, via the character list. -/
def strEndsWith (s suf : String) : Bool := suf.toList.isSuffixOf s.toList

/-- Full-match of a character class over a string (the anchored
character-class regexes of the source), via the character list. -/
def strAll (s : String) (p : Char → Bool) : Bool := s.toList.all p

/-- Python `d.update(vars)`: insert every pair of `vars` in order. -/
def envUpdate (e : Env) (vars : Env) : Env :=
  vars.foldl (fun acc kv => envInsert acc kv.1 kv.2) e

/-- Python `datetime.datetime`, restricted to the naive components the
program uses. -/
structure DateTime where
  year : Nat
  month : Nat
  day : Nat
  hour : Nat
  minute : Nat
  second : Nat
  microsecond : Nat
deriving DecidableEq, Repr

/-- Python datetime `<`: lexicographic on the components. -/
def dtLt (a b : DateTime) : Bool :=
  if a.year ≠ b.year then decide (a.year < b.year)
  else if a.month ≠ b.month then decide (a.month < b.month)
  else if a.day ≠ b.day then decide (a.day < b.day)
  else if a.hour ≠ b.hour then decide (a.hour < b.hour)
  else if a.minute ≠ b.minute then decide (a.minute < b.minute)
  else if a.second ≠ b.second then decide (a.second < b.second)
  else decide (a.microsecond < b.microsecond)

/-- Python datetime `<=`. -/
def dtLe (a b : DateTime) : Bool := dtLt a b || decide (a = b)

/-- Components lie in the ranges Python `datetime` guarantees (wide
enough for the fixed-width decimal rendering of `isoformat`). -/
def dtWF (d : DateTime) : Bool :=
  decide (d.year < 10000) && decide (d.month < 100) && decide (d.day < 100) &&
  decide (d.hour < 100) && decide (d.minute < 100) && decide (d.second < 100) &&
  decide (d.microsecond < 1000000)

/-- Decimal digit character. -/
def digitChar (d : Nat) : Char := Char.ofNat (48 + d)

/-- Numeric value of a decimal digit character. -/
def digitVal (c : Char) : Nat := c.toNat - 48

/-- Two-digit zero-padded rendering (Python `"%02d"`). -/
def pad2 (n : Nat) : List Char := [digitChar (n / 10), digitChar (n % 10)]

/-- Four-digit zero-padded rendering (Python `"%04d"`). -/
def pad4 (n : Nat) : List Char :=
  [digitChar (n / 1000), digitChar (n / 100 % 10), digitChar (n / 10 % 10), digitChar (n % 10)]

/-- Six-digit zero-padded rendering (Python `"%06d"`). -/
def pad6 (n : Nat) : List Char :=
  [digitChar (n / 100000), digitChar (n / 10000 % 10), digitChar (n / 1000 % 10),
   digitChar (n / 100 % 10), digitChar (n / 10 % 10), digitChar (n % 10)]

/-- Python `datetime.isoformat()`: `YYYY-MM-DDTHH:MM:SS`, with
`.ffffff` appended exactly when the microsecond component is nonzero. -/
def isoformat (d : DateTime) : List Char :=
  pad4 d.year ++ ('-' :: (pad2 d.month ++ ('-' :: (pad2 d.day ++
    ('T' :: (pad2 d.hour ++ (':' :: (pad2 d.minute ++ (':' :: (pad2 d.second ++
      (if d.microsecond = 0 then [] else '.' :: pad6 d.microsecond)))))))))))

/-- Parse two decimal digits. -/
def parse2 : List Char → Option (Nat × List Char)
  | a :: b :: rest =>
      if a.isDigit && b.isDigit then some (digitVal a * 10 + digitVal b, rest) else none
  | _ => none

/-- Parse four decimal digits. -/
def parse4 : List Char → Option (Nat × List Char)
  | a :: b :: c :: d :: rest =>
      if a.isDigit && b.isDigit && c.isDigit && d.isDigit then
        some (((digitVal a * 10 + digitVal b) * 10 + digitVal c) * 10 + digitVal d, rest)
      else none
  | _ => none

/-- Parse six decimal digits. -/
def parse6 : List Char → Option (Nat × List Char)
  | a :: b :: c :: d :: e :: f :: rest =>
      if a.isDigit && b.isDigit && c.isDigit && d.isDigit && e.isDigit && f.isDigit then
        some ((((((digitVal a * 10 + digitVal b) * 10 + digitVal c) * 10 + digitVal d) * 10
          + digitVal e) * 10 + digitVal f), rest)
      else none
  | _ => none

/-- Consume one expected character. -/
def expectCh (c : Char) : List Char → Option (List Char)
  | x :: rest => if x = c then some rest else none
  | [] => none

/-- The tail of `fromisoformat` after the seconds: either the end of the
string (microsecond zero) or a dot followed by exactly six digits. -/
def finishIso (y mo dy h mi s : Nat) : List Char → Option DateTime
  | [] => some ⟨y, mo, dy, h, mi, s, 0⟩
  | '.' :: rest =>
      match parse6 rest with
      | some (us, []) => some ⟨y, mo, dy, h, mi, s, us⟩
      | _ => none
  | _ => none

/-- Python `datetime.fromisoformat`, on the grammar `isoformat`
produces (`ValueError` becomes `none`). -/
def fromisoformat (cs : List Char) : Option DateTime :=
  (parse4 cs).bind (fun p1 =>
  (expectCh '-' p1.2).bind (fun c1 =>
  (parse2 c1).bind (fun p2 =>
  (expectCh '-' p2.2).bind (fun c2 =>
  (parse2 c2).bind (fun p3 =>
  (expectCh 'T' p3.2).bind (fun c3 =>
  (parse2 c3).bind (fun p4 =>
  (expectCh ':' p4.2).bind (fun c4 =>
  (parse2 c4).bind (fun p5 =>
  (expectCh ':' p5.2).bind (fun c5 =>
  (parse2 c5).bind (fun p6 =>
  finishIso p1.1 p2.1 p3.1 p4.1 p5.1 p6.1 p6.2)))))))))))

/-- The four required environment variables
(`models.EnvironmentProfile.__post_init__`). -/
def requiredVars : List String :=
  ["ANTHROPIC_BASE_URL", "ANTHROPIC_API_KEY", "ANTHROPIC_MODEL", "ANTHROPIC_SMALL_FAST_MODEL"]

/-- Characters admitted by the model-name pattern: letters, digits,
underscore, dot, hyphen, slash. -/
def isModelChar (c : Char) : Bool :=
  c.isAlpha || c.isDigit || c = '_' || c = '.' || c = '-' || c = '/'

/-- Python `models.EnvironmentProfile` dataclass. -/
structure EnvironmentProfile where
  name : String
  env : Env
  description : Option String
  created : DateTime
  modified : DateTime
deriving DecidableEq, Repr

/-- The validation performed by `EnvironmentProfile.__post_init__`
(models.py lines 20-54): non-empty name; the four required keys present;
`ANTHROPIC_API_KEY` starts with `sk-`; `ANTHROPIC_BASE_URL` starts with
`http://` or `https://`; each of the two model names, when non-empty
(Python truthiness guards the regex check), is a full match of the
model-name pattern (one or more of `isModelChar`).  Each failing check
raises `ValueError`. -/
def postInitCheck (name : String) (env : Env) : Except String Unit :=
  if name = "" then .error "Profile name is required"
  else if !envMem env "ANTHROPIC_BASE_URL" then .error "Required environment variable is missing"
  else if !envMem env "ANTHROPIC_API_KEY" then .error "Required environment variable is missing"
  else if !envMem env "ANTHROPIC_MODEL" then .error "Required environment variable is missing"
  else if !envMem env "ANTHROPIC_SMALL_FAST_MODEL" then .error "Required environment variable is missing"
  else if !strStartsWith (envGetD env "ANTHROPIC_API_KEY" "") "sk-" then
    .error "API key must start with sk-"
  else if !(strStartsWith (envGetD env "ANTHROPIC_BASE_URL" "") "http://"
        || strStartsWith (envGetD env "ANTHROPIC_BASE_URL" "") "https://") then
    .error "Base URL must start with http or https"
  else if envGetD env "ANTHROPIC_MODEL" "" ≠ ""
        && !strAll (envGetD env "ANTHROPIC_MODEL" "") isModelChar then
    .error "Invalid model name format"
  else if envGetD env "ANTHROPIC_SMALL_FAST_MODEL" "" ≠ ""
        && !strAll (envGetD env "ANTHROPIC_SMALL_FAST_MODEL" "") isModelChar then
    .error "Invalid model name format"
  else .ok ()

/-- Constructing an `EnvironmentProfile` (the dataclass constructor,
which runs `__post_init__` and raises `ValueError` on invalid data). -/
def mkProfile (name : String) (env : Env) (description : Option String)
    (created modified : DateTime) : Except String EnvironmentProfile :=
  match postInitCheck name env with
  | .error e => .error e
  | .ok _ => .ok ⟨name, env, description, created, modified⟩

/-- Serialized (dictionary) form of a profile, as produced by
`EnvironmentProfile.to_dict`: timestamps are ISO-format strings, and
`from_dict` treats `created`/`modified` as optional keys. -/
structure ProfileDict where
  name : String
  env : Env
  description : Option String
  created : Option (List Char)
  modified : Option (List Char)
deriving DecidableEq, Repr

/-- `EnvironmentProfile.to_dict` (models.py lines 56-64). -/
def EnvironmentProfile.to_dict (p : EnvironmentProfile) : ProfileDict :=
  ⟨p.name, p.env, p.description, some (isoformat p.created), some (isoformat p.modified)⟩

/-- The `datetime.fromisoformat` call `from_dict` performs on an
optional dictionary entry; a missing entry falls back to the dataclass
default `datetime.now()` (the `now` argument). -/
def parseOptTime : Option (List Char) → DateTime → Except String DateTime
  | none, now => .ok now
  | some s, _ =>
      match fromisoformat s with
      | none => .error "Invalid isoformat string"
      | some t => .ok t

/-- `EnvironmentProfile.from_dict` (models.py lines 66-77): parse the
timestamp strings when present, then run the validating constructor. -/
def EnvironmentProfile.from_dict (d : ProfileDict) (now : DateTime) :
    Except String EnvironmentProfile := do
  let cr ← parseOptTime d.created now
  let mo ← parseOptTime d.modified now
  mkProfile d.name d.env d.description cr mo

/-- `EnvironmentProfile.update_env` (models.py lines 79-89).  The body
reads the clock (`r1`); if that reading is not strictly past the stored
`modified`, it sleeps one millisecond and stores a second reading
(`r2`); otherwise it stores the first reading.  The two clock readings
are passed explicitly. -/
def EnvironmentProfile.update_env (p : EnvironmentProfile) (vars : Env)
    (r1 r2 : DateTime) : EnvironmentProfile :=
  let env' := envUpdate p.env vars
  if dtLe r1 p.modified then { p with env := env', modified := r2 }
  else { p with env := env', modified := r1 }

/-- Serialized (dictionary) form of the settings document, as consumed
by `ClaudeSettings.from_dict` and produced by `ClaudeSettings.to_dict`
(the `schema` component models the `$schema` key, which `from_dict`
treats as optional). -/
structure SettingsDict where
  env : Env
  permissions : List (String × List String)
  statusLine : List (String × String)
  schema : Option String
deriving DecidableEq, Repr

/-- Python `models.ClaudeSettings` dataclass.  `status_line` values are
modelled as strings (the program never inspects them beyond the `type`
key check). -/
structure ClaudeSettings where
  env : Env
  permissions : List (String × List String)
  status_line : List (String × String)
  schema : String
deriving DecidableEq, Repr

/-- The default for the `schema` dataclass field. -/
def defaultSchema : String := "https://json.schemastore.org/claude-code-settings.json"

/-- Lookup in a string-keyed association list with arbitrary values. -/
def keyMem {α : Type} (l : List (String × α)) (k : String) : Bool :=
  l.any (fun kv => kv.1 = k)

/-- `ClaudeSettings.__post_init__` (models.py lines 100-109): non-empty
env, permissions containing `allow` and `deny`, status line containing
`type`. -/
def settingsPostInit (env : Env) (permissions : List (String × List String))
    (status_line : List (String × String)) : Except String Unit :=
  if env = [] then .error "Environment variables are required"
  else if !(keyMem permissions "allow" && keyMem permissions "deny") then
    .error "Permissions dictionary must contain allow and deny keys"
  else if !keyMem status_line "type" then .error "Status line must have a type field"
  else .ok ()

/-- `ClaudeSettings.from_dict` (models.py lines 120-133): rename the
`$schema` and `statusLine` keys and run the validating constructor (a
missing `$schema` key leaves the dataclass default). -/
def ClaudeSettings.from_dict (d : SettingsDict) : Except String ClaudeSettings :=
  match settingsPostInit d.env d.permissions d.statusLine with
  | .error e => .error e
  | .ok _ => .ok ⟨d.env, d.permissions, d.statusLine, d.schema.getD defaultSchema⟩

/-- `ClaudeSettings.to_dict` (models.py lines 111-118). -/
def ClaudeSettings.to_dict (s : ClaudeSettings) : SettingsDict :=
  ⟨s.env, s.permissions, s.status_line, some s.schema⟩

/-- Python `models.ProfileConfig` dataclass. -/
structure ProfileConfig where
  profiles : List EnvironmentProfile
  default_profile : Option String
deriving DecidableEq, Repr

/-- `ProfileConfig.get_profile` (models.py lines 164-169): first profile
with the given name. -/
def ProfileConfig.get_profile (c : ProfileConfig) (name : String) :
    Option EnvironmentProfile :=
  c.profiles.find? (fun p => p.name == name)

/-- Deletion of the first profile with the given name, `none` when no
profile matches (the loop with `del self.profiles[i]`). -/
def removeProfileList : List EnvironmentProfile → String → Option (List EnvironmentProfile)
  | [], _ => none
  | p :: rest, name =>
      if p.name = name then some rest
      else match removeProfileList rest name with
        | none => none
        | some rest' => some (p :: rest')

/-- `ProfileConfig.remove_profile` (models.py lines 179-188): remove the
first profile with the given name; when the removed profile was the
default, the default becomes the first remaining profile's name, or
`none` when the collection became empty.  Returns the updated config and
the boolean result. -/
def ProfileConfig.remove_profile (c : ProfileConfig) (name : String) :
    ProfileConfig × Bool :=
  match removeProfileList c.profiles name with
  | none => (c, false)
  | some ps =>
      let d := if c.default_profile = some name then ps.head?.map (fun p => p.name)
               else c.default_profile
      (⟨ps, d⟩, true)

/-- The serialized (dictionary) form of a profile collection, as parsed
from the YAML document: `from_dict` treats the `profiles` key as
optional. -/
structure ConfigDict where
  profiles : Option (List ProfileDict)
  default_profile : Option String
deriving DecidableEq, Repr

/-- `ProfileConfig.from_dict` (models.py lines 153-162): deserialize
each profile dictionary (propagating its `ValueError`); a missing
`profiles` key yields the empty list. -/
def ProfileConfig.from_dict (d : ConfigDict) (now : DateTime) :
    Except String ProfileConfig := do
  let ps ← match d.profiles with
    | none => pure []
    | some l => l.mapM (fun pd => EnvironmentProfile.from_dict pd now)
  pure ⟨ps, d.default_profile⟩

/-- The error kinds of `exceptions.py`, plus Python `ValueError` (raised
by the data-model layer). -/
inductive ManagerError where
  | profileNotFound
  | profileExists
  | invalidProfile
  | settingsFile
  | configuration
  | validation
  | fileOperation
  | valueError
deriving DecidableEq, Repr

/-- Character class of the profile-name pattern: letters, digits,
hyphen, underscore. -/
def isNameChar (c : Char) : Bool := c.isAlpha || c.isDigit || c = '-' || c = '_'

/-- `utils.validation.validate_profile_name` (validation.py lines 9-23),
`true` when no `ValidationError` is raised: non-empty, at most 50
characters, only name characters, and not starting or ending with a
hyphen or underscore. -/
def validate_profile_name (name : String) : Bool :=
  name ≠ "" && name.length ≤ 50 && strAll name isNameChar &&
  !(strStartsWith name "-" || strStartsWith name "_" ||
    strEndsWith name "-" || strEndsWith name "_")

/-- `utils.validation.validate_api_key` (validation.py lines 66-77):
non-empty, starts with `sk-`, at least five characters. -/
def validate_api_key (api_key : String) : Bool :=
  api_key ≠ "" && strStartsWith api_key "sk-" && api_key.length ≥ 5

/-- Scheme validity for the (restricted) model of Python
`urllib.parse.urlparse`: a letter followed by letters, digits, plus,
minus or dot. -/
def validScheme : List Char → Bool
  | [] => false
  | c :: rest => c.isAlpha && rest.all (fun d => d.isAlphanum || d = '+' || d = '-' || d = '.')

/-- Modelled from Python `urllib.parse.urlparse`, restricted to the
scheme and netloc components the source consults: split the scheme at
the first colon when the part before it is a valid scheme, and read the
netloc after a `//` up to the next `/`, `?` or `#`. -/
def urlSchemeNetloc (url : String) : String × String :=
  let cs := url.toList
  let pre := cs.takeWhile (fun c => c ≠ ':')
  if pre.length < cs.length && validScheme pre then
    let rest := cs.drop (pre.length + 1)
    if rest.take 2 = ['/', '/'] then
      (String.mk (pre.map Char.toLower),
       String.mk ((rest.drop 2).takeWhile (fun c => c ≠ '/' && c ≠ '?' && c ≠ '#')))
    else (String.mk (pre.map Char.toLower), "")
  else if cs.take 2 = ['/', '/'] then
    ("", String.mk ((cs.drop 2).takeWhile (fun c => c ≠ '/' && c ≠ '?' && c ≠ '#')))
  else ("", "")

/-- `utils.validation.validate_base_url` (validation.py lines 80-99):
non-empty, with non-empty scheme and netloc, and an http or https
scheme. -/
def validate_base_url (url : String) : Bool :=
  url ≠ "" &&
  (let sn := urlSchemeNetloc url
   sn.1 ≠ "" && sn.2 ≠ "" && (sn.1 = "http" || sn.1 = "https"))

/-- `utils.validation.validate_model_name` (validation.py lines
102-111): non-empty and a full match of the model-name pattern. -/
def validate_model_name (model : String) : Bool :=
  model ≠ "" && strAll model isModelChar

/-- `utils.validation.validate_environment_vars` in full mode
(validation.py lines 26-63, `partial=False`): a non-empty mapping, the
four required keys present with non-empty values, and the key, URL and
model-name validators passing. -/
def validate_environment_vars (env_vars : Env) : Bool :=
  env_vars ≠ [] &&
  requiredVars.all (fun v => envMem env_vars v && envGetD env_vars v "" ≠ "") &&
  validate_api_key (envGetD env_vars "ANTHROPIC_API_KEY" "") &&
  validate_base_url (envGetD env_vars "ANTHROPIC_BASE_URL" "") &&
  validate_model_name (envGetD env_vars "ANTHROPIC_MODEL" "") &&
  validate_model_name (envGetD env_vars "ANTHROPIC_SMALL_FAST_MODEL" "")

/-- The parsed state of the YAML profile document, at the granularity
`api.load_config` distinguishes: the file is absent; it exists but reads
back empty (falsy text); the YAML parser fails (`yaml.YAMLError`); it
parses to a falsy value (`None` or an empty structure); or it parses to
a truthy structure. -/
inductive YamlFile where
  | absent
  | emptyText
  | malformed
  | parsedFalsy
  | parsedTruthy (d : ConfigDict)
deriving DecidableEq, Repr

/-- The parsed state of the JSON settings document, at the granularity
`api.load_settings` distinguishes. -/
inductive JsonFile where
  | absent
  | emptyText
  | malformed
  | parsed (d : SettingsDict)
deriving DecidableEq, Repr

/-- `ClaudeEnvManager.load_config` (api.py lines 42-69).  The result
carries the returned collection and a flag recording whether the
operation persisted the collection to storage (`save_config`), which
happens exactly in the absent-file branch. -/
def load_config (cache : Option ProfileConfig) (file : YamlFile) (now : DateTime) :
    Except ManagerError (ProfileConfig × Bool) :=
  match cache with
  | some c => .ok (c, false)
  | none =>
      match file with
      | .absent => .ok (⟨[], none⟩, true)
      | .emptyText => .ok (⟨[], none⟩, false)
      | .malformed => .error .configuration
      | .parsedFalsy => .ok (⟨[], none⟩, false)
      | .parsedTruthy d =>
          match ProfileConfig.from_dict d now with
          | .error _ => .error .configuration
          | .ok c => .ok (c, false)

/-- `ClaudeEnvManager.load_settings` (api.py lines 86-106): a missing or
empty file, malformed JSON, or a `from_dict` failure all surface as
`SettingsFileError`. -/
def load_settings (cache : Option ClaudeSettings) (file : JsonFile) :
    Except ManagerError ClaudeSettings :=
  match cache with
  | some s => .ok s
  | none =>
      match file with
      | .absent => .error .settingsFile
      | .emptyText => .error .settingsFile
      | .malformed => .error .settingsFile
      | .parsed d =>
          match ClaudeSettings.from_dict d with
          | .error _ => .error .settingsFile
          | .ok s => .ok s

/-- `ClaudeEnvManager.create_profile` (api.py lines 136-170), over a
loaded collection: eager name and env validation (`ValidationError`),
the duplicate check (`ProfileExistsError`), the validating construction
(`InvalidProfileError`), the append (with `add_profile`'s own duplicate
re-check, a `ValueError`, unreachable here), and the first-profile
default rule.  On success the new profile and the collection that is
then persisted are returned; on error nothing was mutated or
persisted. -/
def create_profile (config : ProfileConfig) (name : String) (env_vars : Env)
    (description : Option String) (now : DateTime) :
    Except ManagerError (EnvironmentProfile × ProfileConfig) :=
  if !validate_profile_name name then .error .validation
  else if !validate_environment_vars env_vars then .error .validation
  else if (config.get_profile name).isSome then .error .profileExists
  else
    match mkProfile name env_vars description now now with
    | .error _ => .error .invalidProfile
    | .ok p =>
        if (config.get_profile name).isSome then .error .valueError
        else
          let profiles' := config.profiles ++ [p]
          let c' : ProfileConfig :=
            ⟨profiles', if profiles'.length = 1 then some name else config.default_profile⟩
          .ok (p, c')

/-- Step 3-4 of `ClaudeEnvManager.apply_profile` (api.py lines 217-226):
copy the profile env, copy over every settings key that does not start
with `ANTHROPIC_`, then default `API_TIMEOUT_MS` to `"600000"` when
absent. -/
def applyMerge (pEnv sEnv : Env) : Env :=
  let merged := sEnv.foldl
    (fun acc kv => if strStartsWith kv.1 "ANTHROPIC_" then acc else envInsert acc kv.1 kv.2) pEnv
  if envMem merged "API_TIMEOUT_MS" then merged else envInsert merged "API_TIMEOUT_MS" "600000"

deriving instance DecidableEq for Except

/-- The outcome of `ClaudeEnvManager.apply_profile`: the returned or
raised result, the settings document as persisted by `save_settings`
(`none` when that save was never reached), and the config document as
persisted by `save_config` (likewise). -/
structure ApplyResult where
  result : Except ManagerError Bool
  savedSettings : Option ClaudeSettings
  savedConfig : Option ProfileConfig
deriving DecidableEq, Repr

/-- The body of `ClaudeEnvManager.apply_profile`'s `try` block (api.py
lines 209-239), over a loaded collection and settings document:
fetch the profile (`ProfileNotFoundError` when absent), build the
merged env, replace the settings env, and set the collection's
default. -/
def applyProfileTry (config : ProfileConfig) (settings : ClaudeSettings)
    (name : String) : Except ManagerError (ClaudeSettings × ProfileConfig) :=
  match config.get_profile name with
  | none => .error .profileNotFound
  | some p =>
      let newEnv := applyMerge p.env settings.env
      .ok ({ settings with env := newEnv }, { config with default_profile := some name })

/-- `ClaudeEnvManager.apply_profile` (api.py lines 207-242): the blanket
`except Exception` re-raises every failure, including the
`ProfileNotFoundError` from the fetch, as `SettingsFileError`; on
success both documents are persisted and `True` is returned. -/
def apply_profile (config : ProfileConfig) (settings : ClaudeSettings)
    (name : String) : ApplyResult :=
  match applyProfileTry config settings name with
  | .error _ => ⟨.error .settingsFile, none, none⟩
  | .ok (s, c) => ⟨.ok true, some s, some c⟩

/-- `ClaudeEnvManager.validate_profile` (api.py lines 285-292): the
`try` block only fetches the profile (no re-validation happens: the
comment defers to `__post_init__`, which only runs at construction), so
the result is exactly profile existence. -/
def validate_profile (config : ProfileConfig) (name : String) : Bool :=
  (config.get_profile name).isSome

/-- Following the spec's words (section 3, Profile): the invariants a
profile is claimed to satisfy — valid name, the four required keys
present with non-empty valid values, and a description of at most 500
characters. -/
def specProfileInvariants (p : EnvironmentProfile) : Bool :=
  validate_profile_name p.name &&
  validate_environment_vars p.env &&
  (match p.description with
   | none => true
   | some d => decide (d.length ≤ 500))

/-- Following the claim's words (C1), before the timeout default: the
settings value for a non-provider key present in the settings, otherwise
the profile value. -/
def mergedBase (pEnv sEnv : Env) (key : String) : Option String :=
  if (!strStartsWith key "ANTHROPIC_" && envMem sEnv key) = true then envLookup sEnv key
  else envLookup pEnv key

/-- Following the claim's words (C1): the value the merged env is
claimed to associate with each key — the settings value for a
non-provider key present in the settings, otherwise the profile value,
with `API_TIMEOUT_MS` defaulted to `"600000"` when otherwise absent. -/
def mergedLookup (pEnv sEnv : Env) (key : String) : Option String :=
  if key = "API_TIMEOUT_MS" ∧ mergedBase pEnv sEnv key = none then some "600000"
  else mergedBase pEnv sEnv key

/-- Sample timestamp. -/
def dt0 : DateTime := ⟨2024, 1, 1, 0, 0, 0, 0⟩

/-- Sample timestamp one second past `dt0`. -/
def dt1 : DateTime := ⟨2024, 1, 1, 0, 0, 1, 0⟩

/-- The profile env of the spec's apply-merge scenario (section 8),
with the source's concrete `ANTHROPIC_` key names. -/
def scenarioProfileEnv : Env :=
  [("ANTHROPIC_BASE_URL", "https://x"), ("ANTHROPIC_API_KEY", "sk-1"),
   ("ANTHROPIC_MODEL", "m1"), ("ANTHROPIC_SMALL_FAST_MODEL", "f1")]

/-- The settings env of the spec's apply-merge scenario. -/
def scenarioSettingsEnv : Env :=
  [("ANTHROPIC_BASE_URL", "https://old"), ("ANTHROPIC_API_KEY", "sk-old"),
   ("ANTHROPIC_MODEL", "old"), ("ANTHROPIC_SMALL_FAST_MODEL", "old"),
   ("OTHER_VAR", "keep-me")]

/-- The scenario profile. -/
def scenarioProfile : EnvironmentProfile := ⟨"p1", scenarioProfileEnv, none, dt0, dt0⟩

/-- A collection holding the scenario profile. -/
def scenarioConfig : ProfileConfig := ⟨[scenarioProfile], none⟩

/-- The scenario settings document. -/
def scenarioSettings : ClaudeSettings :=
  ⟨scenarioSettingsEnv, [("allow", []), ("deny", [])], [("type", "command")], defaultSchema⟩

/-- The env the spec expects after applying the scenario profile: the
profile's four managed values, `OTHER_VAR` preserved, `API_TIMEOUT_MS`
defaulted. -/
def scenarioResultEnv : Env :=
  scenarioProfileEnv ++ [("OTHER_VAR", "keep-me"), ("API_TIMEOUT_MS", "600000")]

/-- An env accepted by `__post_init__` although its `ANTHROPIC_MODEL`
value is empty. -/
def emptyModelEnv : Env :=
  [("ANTHROPIC_BASE_URL", "https://x"), ("ANTHROPIC_API_KEY", "sk-12345"),
   ("ANTHROPIC_MODEL", ""), ("ANTHROPIC_SMALL_FAST_MODEL", "f1")]

/-- A profile whose `ANTHROPIC_MODEL` value is empty (the validating
constructor accepts it). -/
def emptyModelProfile : EnvironmentProfile := ⟨"p", emptyModelEnv, none, dt0, dt0⟩

/-- A collection holding only `emptyModelProfile`. -/
def emptyModelConfig : ProfileConfig := ⟨[emptyModelProfile], some "p"⟩

/-- A valid profile named `dev`. -/
def devProfile : EnvironmentProfile := ⟨"dev", scenarioProfileEnv, none, dt0, dt0⟩

/-- A collection already containing `dev`. -/
def devConfig : ProfileConfig := ⟨[devProfile], some "dev"⟩

/-- Sample profile named `A` (for the default-reassignment scenario). -/
def profileA : EnvironmentProfile := ⟨"A", scenarioProfileEnv, none, dt0, dt0⟩

/-- Sample profile named `B`. -/
def profileB : EnvironmentProfile := ⟨"B", scenarioProfileEnv, none, dt0, dt0⟩

/-- Sample profile named `C`. -/
def profileC : EnvironmentProfile := ⟨"C", scenarioProfileEnv, none, dt0, dt0⟩

/-- The serialized form of a profile whose `ANTHROPIC_MODEL` value is
empty, as it would appear inside the YAML profile document. -/
def emptyModelProfileDict : ProfileDict :=
  ⟨"p", emptyModelEnv, none, some (isoformat dt0), some (isoformat dt0)⟩

/-- A parsed YAML profile document holding `emptyModelProfileDict`. -/
def emptyModelConfigDict : ConfigDict := ⟨some [emptyModelProfileDict], some "p"⟩

/-- An env accepted by `validate_environment_vars` (the API key must be
at least five characters long there). -/
def validEnv : Env :=
  [("ANTHROPIC_BASE_URL", "https://x"), ("ANTHROPIC_API_KEY", "sk-12345"),
   ("ANTHROPIC_MODEL", "m1"), ("ANTHROPIC_SMALL_FAST_MODEL", "f1")]

/-- The collection invariant of the spec (section 3, ProfileCollection):
the default, when set, names an existing profile. -/
def defaultOk (c : ProfileConfig) : Prop :=
  match c.default_profile with
  | none => True
  | some d => ∃ p ∈ c.profiles, p.name = d

/-- Lookup after a Python-style insert: the inserted value at the
inserted key, the previous binding elsewhere. -/
theorem envLookup_envInsert (e : Env) (k v key : String) :
    envLookup (envInsert e k v) key = if key = k then some v else envLookup e key := by
  induction e with
  | nil =>
      simp only [envInsert, envLookup]
      by_cases h : k = key
      · simp [h]
      · simp [h, Ne.symm h]
  | cons kv rest ih =>
      obtain ⟨k', v'⟩ := kv
      simp only [envInsert]
      by_cases h1 : k' = k
      · subst h1
        simp only [envLookup]
        by_cases h2 : k' = key
        · simp [h2]
        · simp [h2, Ne.symm h2]
      · simp only [envLookup, if_neg h1, ih]
        by_cases h2 : k' = key
        · subst h2
          simp [fun hh : k' = k => h1 hh, Ne.symm h1]
        · simp [h2]

/-- A key outside the key list of an association list has no binding. -/
theorem envLookup_eq_none {e : Env} {k : String} (h : k ∉ e.map Prod.fst) :
    envLookup e k = none := by
  induction e with
  | nil => rfl
  | cons kv rest ih =>
      simp only [List.map, List.mem_cons] at h
      push_neg at h
      simp only [envLookup]
      rw [if_neg (fun hh => h.1 hh.symm)]
      exact ih h.2


/-- Lookup through a fold that inserts every pair whose key fails a
predicate (the merge loop of `apply_profile`): a non-skipped key bound
in the iterated list takes that list's value, every other key keeps the
accumulator's binding — provided the iterated list has distinct keys
(keys of a parsed JSON object are distinct). -/
theorem envLookup_skipFold (pr : String → Bool) (sEnv : Env) (acc : Env) (key : String)
    (hnd : (sEnv.map Prod.fst).Nodup) :
    envLookup (sEnv.foldl (fun acc kv => if pr kv.1 then acc else envInsert acc kv.1 kv.2) acc)
        key =
      if (!pr key && envMem sEnv key) = true then envLookup sEnv key
      else envLookup acc key := by
  induction sEnv generalizing acc with
  | nil => simp [envMem, envLookup]
  | cons kv rest ih =>
      obtain ⟨a, b⟩ := kv
      simp only [List.map_cons, List.nodup_cons] at hnd
      obtain ⟨ha, hrest⟩ := hnd
      rw [List.foldl_cons, ih _ hrest]
      by_cases hka : a = key
      · subst hka
        have hnone : envLookup rest a = none := envLookup_eq_none ha
        have hmemr : envMem rest a = false := by simp [envMem, hnone]
        have hmemc : envMem ((a, b) :: rest) a = true := by simp [envMem, envLookup]
        rw [hmemr, hmemc]
        cases hpa : pr a with
        | true => simp [envLookup, hpa]
        | false => simp [envLookup, hpa, envLookup_envInsert]
      · have hlc : envLookup ((a, b) :: rest) key = envLookup rest key := by
          simp [envLookup, hka]
        have hmc : envMem ((a, b) :: rest) key = envMem rest key := by
          simp [envMem, hlc]
        rw [hlc, hmc]
        by_cases hcond : (!pr key && envMem rest key) = true
        · rw [if_pos hcond, if_pos hcond]
        · rw [if_neg hcond, if_neg hcond]
          cases hpa : pr a with
          | true => simp [hpa]
          | false => simp [hpa, envLookup_envInsert, hka, Ne.symm hka]

/-- Lookup in the merged env built by `apply_profile` agrees with the
claimed key-by-key description. -/
theorem envLookup_applyMerge (pEnv sEnv : Env) (key : String)
    (hnd : (sEnv.map Prod.fst).Nodup) :
    envLookup (applyMerge pEnv sEnv) key = mergedLookup pEnv sEnv key := by
  have hm : envLookup (sEnv.foldl (fun acc kv =>
      if strStartsWith kv.1 "ANTHROPIC_" then acc else envInsert acc kv.1 kv.2) pEnv) key =
      mergedBase pEnv sEnv key :=
    envLookup_skipFold (fun s => strStartsWith s "ANTHROPIC_") sEnv pEnv key hnd
  have hapi : envLookup (sEnv.foldl (fun acc kv =>
      if strStartsWith kv.1 "ANTHROPIC_" then acc else envInsert acc kv.1 kv.2) pEnv)
      "API_TIMEOUT_MS" = mergedBase pEnv sEnv "API_TIMEOUT_MS" :=
    envLookup_skipFold (fun s => strStartsWith s "ANTHROPIC_") sEnv pEnv "API_TIMEOUT_MS" hnd
  simp only [applyMerge, mergedLookup]
  by_cases hmem : envMem (sEnv.foldl (fun acc kv =>
      if strStartsWith kv.1 "ANTHROPIC_" then acc else envInsert acc kv.1 kv.2) pEnv)
      "API_TIMEOUT_MS" = true
  · rw [if_pos hmem, hm]
    have hb : mergedBase pEnv sEnv "API_TIMEOUT_MS" ≠ none := by
      rw [← hapi]
      simpa [envMem, Option.isSome_iff_ne_none] using hmem
    have hcond : ¬(key = "API_TIMEOUT_MS" ∧ mergedBase pEnv sEnv key = none) := by
      rintro ⟨h1, h2⟩
      rw [h1] at h2
      exact hb h2
    rw [if_neg hcond]
  · rw [if_neg hmem, envLookup_envInsert]
    have hb : mergedBase pEnv sEnv "API_TIMEOUT_MS" = none := by
      rw [← hapi]
      have := hmem
      simp only [envMem, Option.isSome_iff_ne_none, not_not] at this
      exact this
    by_cases hk : key = "API_TIMEOUT_MS"
    · subst hk
      rw [if_pos rfl, if_pos ⟨rfl, hb⟩]
    · rw [if_neg hk, hm, if_neg (fun hh => hk hh.1)]

/-- Removing the first profile with one name keeps every profile with a
different name. -/
theorem mem_of_removeProfileList {l : List EnvironmentProfile} {name : String}
    {ps : List EnvironmentProfile} {p : EnvironmentProfile}
    (h : removeProfileList l name = some ps) (hp : p ∈ l) (hne : p.name ≠ name) :
    p ∈ ps := by
  induction l generalizing ps with
  | nil => simp [removeProfileList] at h
  | cons q rest ih =>
      simp only [removeProfileList] at h
      by_cases hq : q.name = name
      · rw [if_pos hq] at h
        cases h
        rcases List.mem_cons.mp hp with hpq | hpr
        · exact absurd (hpq ▸ hq) hne
        · exact hpr
      · rw [if_neg hq] at h
        cases hrec : removeProfileList rest name with
        | none => rw [hrec] at h; cases h
        | some rest' =>
            rw [hrec] at h
            cases h
            rcases List.mem_cons.mp hp with hpq | hpr
            · exact hpq ▸ List.mem_cons_self _ _
            · exact List.mem_cons_of_mem _ (ih hrec hpr)

/-- Digit characters produced by `digitChar` parse back to their
value. -/
theorem digit_facts : ∀ d < 10, (digitChar d).isDigit = true ∧ digitVal (digitChar d) = d := by
  decide

/-- `parse2` inverts `pad2` on two-digit numbers. -/
theorem parse2_pad2 (n : Nat) (h : n < 100) (rest : List Char) :
    parse2 (pad2 n ++ rest) = some (n, rest) := by
  have h1 : n / 10 < 10 := by omega
  have h2 : n % 10 < 10 := by omega
  have d1 := digit_facts _ h1
  have d2 := digit_facts _ h2
  simp [pad2, parse2, d1.1, d2.1, d1.2, d2.2]
  omega

/-- `parse4` inverts `pad4` on four-digit numbers. -/
theorem parse4_pad4 (n : Nat) (h : n < 10000) (rest : List Char) :
    parse4 (pad4 n ++ rest) = some (n, rest) := by
  have h1 : n / 1000 < 10 := by omega
  have h2 : n / 100 % 10 < 10 := by omega
  have h3 : n / 10 % 10 < 10 := by omega
  have h4 : n % 10 < 10 := by omega
  have d1 := digit_facts _ h1
  have d2 := digit_facts _ h2
  have d3 := digit_facts _ h3
  have d4 := digit_facts _ h4
  simp [pad4, parse4, d1.1, d2.1, d3.1, d4.1, d1.2, d2.2, d3.2, d4.2]
  omega

/-- `parse6` inverts `pad6` on six-digit numbers. -/
theorem parse6_pad6 (n : Nat) (h : n < 1000000) (rest : List Char) :
    parse6 (pad6 n ++ rest) = some (n, rest) := by
  have h1 : n / 100000 < 10 := by omega
  have h2 : n / 10000 % 10 < 10 := by omega
  have h3 : n / 1000 % 10 < 10 := by omega
  have h4 : n / 100 % 10 < 10 := by omega
  have h5 : n / 10 % 10 < 10 := by omega
  have h6 : n % 10 < 10 := by omega
  have d1 := digit_facts _ h1
  have d2 := digit_facts _ h2
  have d3 := digit_facts _ h3
  have d4 := digit_facts _ h4
  have d5 := digit_facts _ h5
  have d6 := digit_facts _ h6
  simp [pad6, parse6, d1.1, d2.1, d3.1, d4.1, d5.1, d6.1, d1.2, d2.2, d3.2, d4.2, d5.2, d6.2]
  omega

set_option maxHeartbeats 2000000 in
/-- `fromisoformat` inverts `isoformat` on in-range datetimes. -/
theorem fromisoformat_isoformat (d : DateTime) (h : dtWF d = true) :
    fromisoformat (isoformat d) = some d := by
  obtain ⟨y, mo, dy, hh, mi, s, us⟩ := d
  simp only [dtWF, Bool.and_eq_true, decide_eq_true_eq] at h
  obtain ⟨⟨⟨⟨⟨⟨hy, hmo⟩, hdy⟩, hhh⟩, hmi⟩, hs⟩, hus⟩ := h
  by_cases h0 : us = 0
  · subst h0
    have hps : parse2 (pad2 s) = some (s, []) := by
      have := parse2_pad2 s hs []
      rwa [List.append_nil] at this
    simp [isoformat, fromisoformat, Option.some_bind, parse4_pad4 _ hy, parse2_pad2 _ hmo,
      parse2_pad2 _ hdy, parse2_pad2 _ hhh, parse2_pad2 _ hmi, hps, expectCh,
      finishIso]
  · have h6 := parse6_pad6 us hus []
    rw [List.append_nil] at h6
    simp [isoformat, fromisoformat, h0, Option.some_bind, parse4_pad4 _ hy, parse2_pad2 _ hmo,
      parse2_pad2 _ hdy, parse2_pad2 _ hhh, parse2_pad2 _ hmi, parse2_pad2 _ hs, expectCh,
      finishIso, h6]

/-- C6: when the settings file is absent, `load_settings` fails with
`SettingsFileError`; when the profile config file is absent,
`load_config` succeeds with an empty collection and persists it (the
flag `true`); a config file that is present but empty, or parses to a
falsy (non-mapping) value, yields an empty collection without
persisting; syntactically malformed YAML raises `ConfigurationError`. -/
theorem load_config_load_settings_spec :
    (∀ now, load_config none YamlFile.absent now = .ok (⟨[], none⟩, true)) ∧
    (∀ now, load_config none YamlFile.emptyText now = .ok (⟨[], none⟩, false)) ∧
    (∀ now, load_config none YamlFile.parsedFalsy now = .ok (⟨[], none⟩, false)) ∧
    (∀ now, load_config none YamlFile.malformed now = .error .configuration) ∧
    load_settings none JsonFile.absent = .error .settingsFile :=
  ⟨fun _ => rfl, fun _ => rfl, fun _ => rfl, fun _ => rfl, rfl⟩

/-- C7 (amended): applying a profile whose name is not in the loaded
collection fails, but with `SettingsFileError` — the blanket exception
handler wraps the internal `ProfileNotFoundError` — and neither
document is persisted. -/
theorem apply_profile_missing_spec (config : ProfileConfig) (settings : ClaudeSettings)
    (name : String) (h : config.get_profile name = none) :
    apply_profile config settings name = ⟨.error .settingsFile, none, none⟩ := by
  simp [apply_profile, applyProfileTry, h]

/-- Witness for C7's amended theorem at a concrete missing name. -/
theorem apply_profile_missing_spec_witness :
    scenarioConfig.get_profile "nope" = none ∧
    apply_profile scenarioConfig scenarioSettings "nope" = ⟨.error .settingsFile, none, none⟩ :=
  ⟨by decide, apply_profile_missing_spec scenarioConfig scenarioSettings "nope" (by decide)⟩

/-- C7 counterexample: for a missing name the operation does not fail
with `ProfileNotFoundError` (it fails with `SettingsFileError`), though
indeed nothing is persisted. -/
theorem apply_profile_missing_cex :
    (apply_profile scenarioConfig scenarioSettings "nope").result ≠
      Except.error ManagerError.profileNotFound ∧
    (apply_profile scenarioConfig scenarioSettings "nope").result =
      Except.error ManagerError.settingsFile ∧
    (apply_profile scenarioConfig scenarioSettings "nope").savedSettings = none ∧
    (apply_profile scenarioConfig scenarioSettings "nope").savedConfig = none := by
  decide

/-- C5 (amended): `validate_profile` returns `true` exactly when a
profile with the given name exists in the loaded collection; the current
state of that profile is not re-validated. -/
theorem validate_profile_spec (config : ProfileConfig) (name : String) :
    validate_profile config name = true ↔ ∃ p ∈ config.profiles, p.name = name := by
  simp [validate_profile, ProfileConfig.get_profile, List.find?_isSome]

/-- C5 counterexample: a collection containing a profile violating the
spec's profile invariants (its `ANTHROPIC_MODEL` value is empty) on
which `validate_profile` nevertheless returns `true`. -/
theorem validate_profile_cex :
    validate_profile emptyModelConfig "p" = true ∧
    emptyModelProfile ∈ emptyModelConfig.profiles ∧
    emptyModelProfile.name = "p" ∧
    specProfileInvariants emptyModelProfile = false := by
  decide

/-- C3 (amended): after `update_env` the `modified` timestamp equals the
clock reading the call adopts (the first reading when it is strictly
past the previous `modified`, the post-sleep reading otherwise), and it
strictly increases exactly when that adopted reading is strictly past
the previous `modified` — the implementation relies on the 1ms sleep
advancing the clock and does not force an increment itself. -/
theorem update_env_modified_spec (p : EnvironmentProfile) (vars : Env)
    (r1 r2 : DateTime) :
    ((p.update_env vars r1 r2).modified = if dtLe r1 p.modified = true then r2 else r1) ∧
    (dtLt p.modified (if dtLe r1 p.modified = true then r2 else r1) = true →
      dtLt p.modified (p.update_env vars r1 r2).modified = true) := by
  have hm : (p.update_env vars r1 r2).modified =
      if dtLe r1 p.modified = true then r2 else r1 := by
    by_cases h : dtLe r1 p.modified = true <;> simp [EnvironmentProfile.update_env, h]
  exact ⟨hm, fun h => hm ▸ h⟩

/-- Witness for C3's amended theorem: with a clock strictly past the
stored `modified`, the timestamp strictly increases. -/
theorem update_env_modified_spec_witness :
    dtLt scenarioProfile.modified
      (if dtLe dt1 scenarioProfile.modified = true then dt0 else dt1) = true ∧
    dtLt scenarioProfile.modified
      ((scenarioProfile.update_env [] dt1 dt0).modified) = true :=
  ⟨by decide, (update_env_modified_spec scenarioProfile [] dt1 dt0).2 (by decide)⟩

/-- C3 counterexample: under a clock frozen at the profile's current
`modified` (both readings of both calls equal), two successive
`update_env` calls leave `modified` unchanged rather than strictly
increasing it. -/
theorem update_env_frozen_clock_cex :
    ((scenarioProfile.update_env [] dt0 dt0).update_env [] dt0 dt0).modified =
      (scenarioProfile.update_env [] dt0 dt0).modified ∧
    dtLt (scenarioProfile.update_env [] dt0 dt0).modified
      (((scenarioProfile.update_env [] dt0 dt0).update_env [] dt0 dt0).modified) = false := by
  decide

/-- C2 (amended): profile construction succeeds exactly when the name is
non-empty, the four required keys are present, the API key starts with
`sk-`, the base URL starts with `http://` or `https://`, and each model
name is empty or matches the model-name pattern — presence, not
non-emptiness, is what is enforced for the two model values, and the URL
check is a prefix check only. -/
theorem mkProfile_ok_iff (name : String) (env : Env) (description : Option String)
    (created modified : DateTime) :
    (∃ p, mkProfile name env description created modified = Except.ok p) ↔
      (name ≠ "" ∧
       envMem env "ANTHROPIC_BASE_URL" = true ∧
       envMem env "ANTHROPIC_API_KEY" = true ∧
       envMem env "ANTHROPIC_MODEL" = true ∧
       envMem env "ANTHROPIC_SMALL_FAST_MODEL" = true ∧
       strStartsWith (envGetD env "ANTHROPIC_API_KEY" "") "sk-" = true ∧
       (strStartsWith (envGetD env "ANTHROPIC_BASE_URL" "") "http://" = true ∨
        strStartsWith (envGetD env "ANTHROPIC_BASE_URL" "") "https://" = true) ∧
       (envGetD env "ANTHROPIC_MODEL" "" = "" ∨
        strAll (envGetD env "ANTHROPIC_MODEL" "") isModelChar = true) ∧
       (envGetD env "ANTHROPIC_SMALL_FAST_MODEL" "" = "" ∨
        strAll (envGetD env "ANTHROPIC_SMALL_FAST_MODEL" "") isModelChar = true)) := by
  simp only [mkProfile, postInitCheck]
  split_ifs with h1 h2 h3 h4 h5 h6 h7 h8 h9 <;> simp_all
  refine ⟨?_, ?_, ?_⟩
  · cases hb : strStartsWith (envGetD env "ANTHROPIC_BASE_URL" "") "http://" with
    | true => exact Or.inl rfl
    | false => exact Or.inr (h7 hb)
  · by_cases hm : envGetD env "ANTHROPIC_MODEL" "" = ""
    · exact Or.inl hm
    · exact Or.inr (h8 hm)
  · by_cases hf : envGetD env "ANTHROPIC_SMALL_FAST_MODEL" "" = ""
    · exact Or.inl hf
    · exact Or.inr (h9 hf)

/-- C2 counterexample, reached through the program's own load path: the
chain `load_config` → `ProfileConfig.from_dict` →
`EnvironmentProfile.from_dict` → constructor (api.py lines 58-60,
models.py lines 153-162 and 66-77) runs no `validate_environment_vars`
on the way, so a profile document whose `ANTHROPIC_MODEL` value is the
empty string loads successfully: the constructor accepts it (the
truthiness guard skips the regex for empty values) and the resulting
collection holds a constructed Profile with an empty required value,
although the claim requires every such construction attempt to fail. -/
theorem mkProfile_accepts_empty_model :
    load_config none (YamlFile.parsedTruthy emptyModelConfigDict) dt1 =
      Except.ok (⟨[emptyModelProfile], some "p"⟩, false) ∧
    EnvironmentProfile.from_dict emptyModelProfileDict dt1 = Except.ok emptyModelProfile ∧
    mkProfile "p" emptyModelEnv none dt0 dt0 = Except.ok emptyModelProfile ∧
    envLookup emptyModelEnv "ANTHROPIC_MODEL" = some "" := by
  decide

/-- C4: removing a profile preserves the invariant that the default,
when set, names an existing profile; removing a non-default profile
leaves the default unchanged; removing the profile currently marked
default reassigns the default, for every collection, to the name of the
first remaining profile in collection order (or clears it when the
collection became empty); and in the concrete scenarios, removing
default `A` from a two-profile collection reassigns the default to `B`,
removing the last profile clears it, and removing default `A` from
`[A, B, C]` yields `[B, C]` with default `B` — the first remaining
profile, not the last. -/
theorem remove_profile_default_spec :
    (∀ (c : ProfileConfig) (name : String), defaultOk c →
        defaultOk (c.remove_profile name).1) ∧
    (∀ (c : ProfileConfig) (name : String), c.default_profile ≠ some name →
        (c.remove_profile name).1.default_profile = c.default_profile) ∧
    (∀ (c : ProfileConfig) (name : String), c.default_profile = some name →
        (c.remove_profile name).2 = true →
        (c.remove_profile name).1.default_profile =
          Option.map (fun p => p.name) (c.remove_profile name).1.profiles.head?) ∧
    (ProfileConfig.remove_profile ⟨[profileA, profileB], some "A"⟩ "A").1.default_profile =
      some "B" ∧
    (ProfileConfig.remove_profile ⟨[profileB], some "B"⟩ "B").1.default_profile = none ∧
    (ProfileConfig.remove_profile ⟨[profileA, profileB, profileC], some "A"⟩ "A").1 =
      ⟨[profileB, profileC], some "B"⟩ := by
  refine ⟨?_, ?_, ?_, by decide, by decide, by decide⟩
  · intro c name hdef
    unfold ProfileConfig.remove_profile
    cases hrem : removeProfileList c.profiles name with
    | none => exact hdef
    | some ps =>
        show defaultOk (⟨ps, if c.default_profile = some name
          then Option.map (fun p => p.name) ps.head? else c.default_profile⟩ : ProfileConfig)
        by_cases hd : c.default_profile = some name
        · rw [if_pos hd]
          cases hps : ps with
          | nil => simp [defaultOk]
          | cons q rest =>
              simp only [defaultOk, List.head?_cons, Option.map_some']
              exact ⟨q, List.mem_cons_self _ _, rfl⟩
        · rw [if_neg hd]
          unfold defaultOk at hdef ⊢
          cases hcd : c.default_profile with
          | none => trivial
          | some d =>
              rw [hcd] at hdef
              obtain ⟨p, hp, hpn⟩ := hdef
              have hne : p.name ≠ name := by
                intro hh
                apply hd
                rw [hcd, ← hpn, hh]
              exact ⟨p, mem_of_removeProfileList hrem hp hne, hpn⟩
  · intro c name hd
    unfold ProfileConfig.remove_profile
    cases hrem : removeProfileList c.profiles name with
    | none => rfl
    | some ps =>
        show (if c.default_profile = some name
          then Option.map (fun p => p.name) ps.head? else c.default_profile) = c.default_profile
        rw [if_neg hd]
  · intro c name hd hrem2
    unfold ProfileConfig.remove_profile at hrem2 ⊢
    cases hrem : removeProfileList c.profiles name with
    | none => rw [hrem] at hrem2; simp at hrem2
    | some ps =>
        show (if c.default_profile = some name
            then Option.map (fun p => p.name) ps.head? else c.default_profile) =
          Option.map (fun p => p.name) ps.head?
        rw [if_pos hd]

/-- Witness for C4's hypothesis-bearing parts: invariant preservation at
the two-profile scenario, and first-remaining reassignment at the
three-profile scenario. -/
theorem remove_profile_default_spec_witness :
    (defaultOk (⟨[profileA, profileB], some "A"⟩ : ProfileConfig) ∧
     defaultOk (ProfileConfig.remove_profile ⟨[profileA, profileB], some "A"⟩ "A").1) ∧
    ((⟨[profileA, profileB, profileC], some "A"⟩ : ProfileConfig).default_profile = some "A" ∧
     (ProfileConfig.remove_profile ⟨[profileA, profileB, profileC], some "A"⟩ "A").2 = true ∧
     (ProfileConfig.remove_profile
        ⟨[profileA, profileB, profileC], some "A"⟩ "A").1.default_profile =
       Option.map (fun p => p.name)
         (ProfileConfig.remove_profile
           ⟨[profileA, profileB, profileC], some "A"⟩ "A").1.profiles.head?) := by
  have h : defaultOk (⟨[profileA, profileB], some "A"⟩ : ProfileConfig) :=
    ⟨profileA, List.mem_cons_self _ _, rfl⟩
  refine ⟨⟨h, remove_profile_default_spec.1 _ "A" h⟩, rfl, by decide, ?_⟩
  exact remove_profile_default_spec.2.2.1 _ "A" rfl (by decide)

/-- C9: deserializing the serialized form of a valid profile (one that
passes its construction-time validation, with in-range timestamps)
reconstructs a profile equal to the original in every field, timestamps
included. -/
theorem from_dict_to_dict_roundtrip (p : EnvironmentProfile) (now : DateTime)
    (hv : postInitCheck p.name p.env = Except.ok ())
    (hc : dtWF p.created = true) (hm : dtWF p.modified = true) :
    EnvironmentProfile.from_dict p.to_dict now = Except.ok p := by
  simp only [EnvironmentProfile.from_dict, EnvironmentProfile.to_dict, parseOptTime,
    fromisoformat_isoformat p.created hc, fromisoformat_isoformat p.modified hm,
    mkProfile, hv]
  rfl

/-- Witness for C9 at a concrete valid profile. -/
theorem from_dict_to_dict_roundtrip_witness :
    postInitCheck devProfile.name devProfile.env = Except.ok () ∧
    dtWF devProfile.created = true ∧ dtWF devProfile.modified = true ∧
    EnvironmentProfile.from_dict devProfile.to_dict dt1 = Except.ok devProfile :=
  ⟨by decide, by decide, by decide,
   from_dict_to_dict_roundtrip devProfile dt1 (by decide) (by decide) (by decide)⟩

/-- C8 (amended): when the profile name and env pass the eager syntactic
validation, creating a profile whose name already exists in the loaded
collection fails with `ProfileExistsError` and no state is mutated or
persisted (the error is raised before any mutation); inputs failing the
eager validation instead fail with `ValidationError`. -/
theorem create_profile_duplicate_spec (config : ProfileConfig) (name : String)
    (env_vars : Env) (description : Option String) (now : DateTime)
    (hn : validate_profile_name name = true)
    (he : validate_environment_vars env_vars = true)
    (hx : (config.get_profile name).isSome = true) :
    create_profile config name env_vars description now =
      Except.error ManagerError.profileExists := by
  simp [create_profile, hn, he, hx]

/-- Witness for C8's amended theorem at a concrete duplicate create. -/
theorem create_profile_duplicate_spec_witness :
    validate_profile_name "dev" = true ∧
    validate_environment_vars validEnv = true ∧
    (devConfig.get_profile "dev").isSome = true ∧
    create_profile devConfig "dev" validEnv none dt1 =
      Except.error ManagerError.profileExists :=
  ⟨by decide, by decide, by decide,
   create_profile_duplicate_spec devConfig "dev" validEnv none dt1
     (by decide) (by decide) (by decide)⟩

/-- C8 counterexample: with a duplicate name but an invalid (empty) env
the operation fails with `ValidationError`, not `ProfileExistsError` —
the eager validation runs before the existence check. -/
theorem create_profile_duplicate_cex :
    (devConfig.get_profile "dev").isSome = true ∧
    create_profile devConfig "dev" [] none dt0 = Except.error ManagerError.validation := by
  decide

/-- C1: for a profile in the collection and a loaded settings document
(whose env, as a parsed JSON object, has distinct keys), a successful
apply persists a settings document whose env is, key by key, the
profile's env overlaid with the settings' non-`ANTHROPIC_` keys and the
`API_TIMEOUT_MS` default, and persists the collection with the default
set to the profile's name; the spec's concrete scenario produces exactly
the four managed values plus `OTHER_VAR` and the defaulted timeout. -/
theorem apply_profile_merge_spec :
    (∀ (config : ProfileConfig) (settings : ClaudeSettings) (P : EnvironmentProfile),
        config.get_profile P.name = some P →
        (settings.env.map Prod.fst).Nodup →
        ∃ s' c',
          apply_profile config settings P.name = ⟨.ok true, some s', some c'⟩ ∧
          (∀ key, envLookup s'.env key = mergedLookup P.env settings.env key) ∧
          c' = { config with default_profile := some P.name }) ∧
    apply_profile scenarioConfig scenarioSettings "p1" =
      ⟨.ok true, some { scenarioSettings with env := scenarioResultEnv },
       some { scenarioConfig with default_profile := some "p1" }⟩ := by
  constructor
  · intro config settings P hget hnd
    refine ⟨{ settings with env := applyMerge P.env settings.env },
            { config with default_profile := some P.name }, ?_, ?_, rfl⟩
    · simp [apply_profile, applyProfileTry, hget]
    · intro key
      exact envLookup_applyMerge P.env settings.env key hnd
  · decide

/-- Witness for C1's universal part at the spec's concrete scenario. -/
theorem apply_profile_merge_spec_witness :
    scenarioConfig.get_profile scenarioProfile.name = some scenarioProfile ∧
    (scenarioSettings.env.map Prod.fst).Nodup ∧
    (∃ s' c',
        apply_profile scenarioConfig scenarioSettings scenarioProfile.name =
          ⟨.ok true, some s', some c'⟩ ∧
        (∀ key, envLookup s'.env key =
          mergedLookup scenarioProfile.env scenarioSettings.env key) ∧
        c' = { scenarioConfig with default_profile := some scenarioProfile.name }) :=
  ⟨by decide, by decide,
   apply_profile_merge_spec.1 scenarioConfig scenarioSettings scenarioProfile
     (by decide) (by decide)⟩

/-- C10: a successful apply persists a settings document that differs
from the loaded one only in `env`: the serialized `permissions`,
`statusLine` and `$schema` fields are unchanged. -/
theorem apply_profile_frame (config : ProfileConfig) (settings : ClaudeSettings)
    (name : String) (s' : ClaudeSettings)
    (h : (apply_profile config settings name).savedSettings = some s') :
    (ClaudeSettings.to_dict s').permissions = (ClaudeSettings.to_dict settings).permissions ∧
    (ClaudeSettings.to_dict s').statusLine = (ClaudeSettings.to_dict settings).statusLine ∧
    (ClaudeSettings.to_dict s').schema = (ClaudeSettings.to_dict settings).schema := by
  unfold apply_profile applyProfileTry at h
  cases hget : config.get_profile name with
  | none => rw [hget] at h; simp at h
  | some p =>
      rw [hget] at h
      simp only [Option.some.injEq] at h
      subst h
      exact ⟨rfl, rfl, rfl⟩

/-- Witness for C10 at the concrete scenario. -/
theorem apply_profile_frame_witness :
    (apply_profile scenarioConfig scenarioSettings "p1").savedSettings =
      some { scenarioSettings with env := scenarioResultEnv } ∧
    ((ClaudeSettings.to_dict { scenarioSettings with env := scenarioResultEnv }).permissions =
       (ClaudeSettings.to_dict scenarioSettings).permissions ∧
     (ClaudeSettings.to_dict { scenarioSettings with env := scenarioResultEnv }).statusLine =
       (ClaudeSettings.to_dict scenarioSettings).statusLine ∧
     (ClaudeSettings.to_dict { scenarioSettings with env := scenarioResultEnv }).schema =
       (ClaudeSettings.to_dict scenarioSettings).schema) :=
  ⟨by decide, apply_profile_frame scenarioConfig scenarioSettings "p1" _ (by decide)⟩
